import Mathlib

/-!
Verification development for the ESP32-C6 MCP firmware core.

Shallow embedding of the transport framing codec, the incremental frame
decoder, the transport lifecycle, the JSON-RPC message model, the per-session
state machine, the simple MCP server dispatcher, and the TCP accept loop,
translated from:

* `components/tinymcp/src/esp32_transport.cpp`
* `components/tinymcp/port/mcp_message.cpp`
* `components/tinymcp/port/mcp_session.cpp`
* `components/tinymcp/src/mcp_server_simple.c`
* `components/mcp_tcp_transport/src/mcp_tcp_transport.c`

Machine bytes are modelled as `Nat` (always below 256 on real inputs; the
hypotheses of the theorems say so where it matters), buffers as `List Nat`,
and `esp_err_t` as the inductive `EspErr` below (restricted to the codes the
translated functions actually return).  Pointer-validity checks of the C API
(`!input`, `!output`, ...) have no counterpart in the embedding; all remaining
checks (`input_len == 0`, size checks, marker checks) are translated verbatim.
-/

/-- Error codes of `esp_err_t` used by the translated functions. -/
inductive EspErr where
  | invalidArg
  | invalidSize
  | invalidState
  | noMem
  | timeout
  | fail
deriving DecidableEq, Repr

/-! ### Framing codec constants (esp32_transport.h lines 47-50) -/

/-- `MCP_MESSAGE_START_MARKER` (0x7E). -/
def MCP_MESSAGE_START_MARKER : Nat := 0x7E

/-- `MCP_MESSAGE_END_MARKER` (0x7F). -/
def MCP_MESSAGE_END_MARKER : Nat := 0x7F

/-- `MCP_MESSAGE_ESCAPE_CHAR` (0x7D). -/
def MCP_MESSAGE_ESCAPE_CHAR : Nat := 0x7D

/-- `MCP_MESSAGE_ESCAPE_XOR` (0x20). -/
def MCP_MESSAGE_ESCAPE_XOR : Nat := 0x20

/-! ### One-shot framing (`esp32_mcp_transport_frame_message`, esp32_transport.cpp) -/

/-- The escaped body emitted by the encoder loop of
`esp32_mcp_transport_frame_message`: a marker byte (`0x7E`, `0x7F`, `0x7D`)
is replaced by the escape char followed by the byte XOR `0x20`; any other
byte is copied verbatim. -/
def frame_body : List Nat → List Nat
  | [] => []
  | b :: rest =>
    (if b = MCP_MESSAGE_START_MARKER ∨ b = MCP_MESSAGE_END_MARKER ∨
        b = MCP_MESSAGE_ESCAPE_CHAR then
      [MCP_MESSAGE_ESCAPE_CHAR, b ^^^ MCP_MESSAGE_ESCAPE_XOR]
    else
      [b]) ++ frame_body rest

/-- `esp32_mcp_transport_frame_message`: rejects an empty input
(`ESP_ERR_INVALID_ARG`), requires the output buffer to hold the worst case
`2*input_len + 2` bytes (`ESP_ERR_INVALID_SIZE`), and otherwise emits
start marker, escaped body, end marker. -/
def esp32_mcp_transport_frame_message (input : List Nat) (output_size : Nat) :
    Except EspErr (List Nat) :=
  if input.length = 0 then
    .error .invalidArg
  else if output_size < input.length * 2 + 2 then
    .error .invalidSize
  else
    .ok (MCP_MESSAGE_START_MARKER :: (frame_body input ++ [MCP_MESSAGE_END_MARKER]))

/-- The byte loop of `esp32_mcp_transport_unframe_message` over the bytes
strictly between the two markers: `escape_next` un-escapes by XOR `0x20`,
an escape char only flips `escape_next`, and each stored byte is bounds
checked against the caller's `output_size`. -/
def unframe_loop (mid : List Nat) (escape_next : Bool) (acc : List Nat)
    (output_size : Nat) : Except EspErr (List Nat) :=
  match mid with
  | [] => .ok acc
  | b :: rest =>
    if escape_next then
      if output_size ≤ acc.length then .error .invalidSize
      else unframe_loop rest false (acc ++ [b ^^^ MCP_MESSAGE_ESCAPE_XOR]) output_size
    else if b = MCP_MESSAGE_ESCAPE_CHAR then
      unframe_loop rest true acc output_size
    else
      if output_size ≤ acc.length then .error .invalidSize
      else unframe_loop rest false (acc ++ [b]) output_size

/-- `esp32_mcp_transport_unframe_message`: needs at least two bytes, the
first equal to the start marker and the last equal to the end marker
(`ESP_ERR_INVALID_ARG` otherwise), then un-escapes the bytes in between. -/
def esp32_mcp_transport_unframe_message (input : List Nat) (output_size : Nat) :
    Except EspErr (List Nat) :=
  if input.length < 2 then
    .error .invalidArg
  else if input.head? ≠ some MCP_MESSAGE_START_MARKER ∨
      input.getLast? ≠ some MCP_MESSAGE_END_MARKER then
    .error .invalidArg
  else
    unframe_loop ((input.drop 1).dropLast) false [] output_size

/-! ### Theorems for the one-shot codec -/

theorem frame_body_cons (b : Nat) (rest : List Nat) :
    frame_body (b :: rest) =
      (if b = MCP_MESSAGE_START_MARKER ∨ b = MCP_MESSAGE_END_MARKER ∨
          b = MCP_MESSAGE_ESCAPE_CHAR then
        [MCP_MESSAGE_ESCAPE_CHAR, b ^^^ MCP_MESSAGE_ESCAPE_XOR]
      else
        [b]) ++ frame_body rest := rfl

theorem unframe_loop_cons (b : Nat) (rest : List Nat) (escape_next : Bool)
    (acc : List Nat) (osz : Nat) :
    unframe_loop (b :: rest) escape_next acc osz =
      (if escape_next then
        if osz ≤ acc.length then .error .invalidSize
        else unframe_loop rest false (acc ++ [b ^^^ MCP_MESSAGE_ESCAPE_XOR]) osz
      else if b = MCP_MESSAGE_ESCAPE_CHAR then
        unframe_loop rest true acc osz
      else
        if osz ≤ acc.length then .error .invalidSize
        else unframe_loop rest false (acc ++ [b]) osz) := rfl

theorem frame_body_length_le (x : List Nat) : x.length ≤ (frame_body x).length := by
  induction x with
  | nil => simp [frame_body]
  | cons b rest ih =>
    rw [frame_body_cons]
    split <;> simp <;> omega

theorem unframe_loop_frame_body (x : List Nat) (acc : List Nat) (osz : Nat)
    (h : acc.length + x.length ≤ osz) :
    unframe_loop (frame_body x) false acc osz = .ok (acc ++ x) := by
  induction x generalizing acc with
  | nil => simp [frame_body, unframe_loop]
  | cons b rest ih =>
    simp only [List.length_cons] at h
    have hne : ¬ osz ≤ acc.length := by omega
    by_cases hb : b = MCP_MESSAGE_START_MARKER ∨ b = MCP_MESSAGE_END_MARKER ∨
        b = MCP_MESSAGE_ESCAPE_CHAR
    · rw [frame_body_cons, if_pos hb, List.cons_append, List.cons_append,
        List.nil_append, unframe_loop_cons]
      rw [if_neg (by simp), if_pos rfl, unframe_loop_cons, if_pos rfl, if_neg hne,
        Nat.xor_cancel_right, ih (acc ++ [b]) (by simp; omega)]
      simp
    · have hbne : b ≠ MCP_MESSAGE_ESCAPE_CHAR := fun hc => hb (Or.inr (Or.inr hc))
      rw [frame_body_cons, if_neg hb, List.cons_append, List.nil_append,
        unframe_loop_cons]
      rw [if_neg (by simp), if_neg hbne, if_neg hne, ih (acc ++ [b]) (by simp; omega)]
      simp

/-- C1: Framing round-trip.  For every non-empty byte sequence `x` (marker
bytes `0x7E`, `0x7F`, `0x7D` included), framing into a buffer of at least
`2*len(x)+2` bytes succeeds, and unframing the framed bytes into a buffer of
at least `len(x)` bytes succeeds and returns exactly `x`; the empty sequence
is rejected by the encoder with `ESP_ERR_INVALID_ARG`. -/
theorem frame_unframe_roundtrip (x : List Nat) (osz usz : Nat)
    (hx : x ≠ []) (hb : ∀ b ∈ x, b < 256)
    (hosz : x.length * 2 + 2 ≤ osz) (husz : x.length ≤ usz) :
    (∃ framed, esp32_mcp_transport_frame_message x osz = .ok framed ∧
      esp32_mcp_transport_unframe_message framed usz = .ok x) ∧
    esp32_mcp_transport_frame_message [] osz = .error .invalidArg := by
  constructor
  · refine ⟨MCP_MESSAGE_START_MARKER :: (frame_body x ++ [MCP_MESSAGE_END_MARKER]), ?_, ?_⟩
    · rw [esp32_mcp_transport_frame_message,
        if_neg (by simpa using List.length_pos.mpr hx |>.ne'), if_neg (by omega)]
    · have hlen : (MCP_MESSAGE_START_MARKER ::
          (frame_body x ++ [MCP_MESSAGE_END_MARKER])).length = (frame_body x).length + 2 := by
        simp
      have hcat : MCP_MESSAGE_START_MARKER :: (frame_body x ++ [MCP_MESSAGE_END_MARKER]) =
          (MCP_MESSAGE_START_MARKER :: frame_body x) ++ [MCP_MESSAGE_END_MARKER] := by
        simp
      rw [esp32_mcp_transport_unframe_message, if_neg (by rw [hlen]; omega)]
      rw [if_neg ?hmarkers]
      case hmarkers =>
        push_neg
        refine ⟨rfl, ?_⟩
        rw [hcat]
        exact List.getLast?_concat _
      have hdrop : ((MCP_MESSAGE_START_MARKER ::
          (frame_body x ++ [MCP_MESSAGE_END_MARKER])).drop 1).dropLast = frame_body x := by
        simp
      rw [hdrop]
      have := unframe_loop_frame_body x [] usz (by simpa using husz)
      simpa using this
  · rw [esp32_mcp_transport_frame_message]
    simp

/-- Witness for C1 at `x = [0x7E, 0x7F, 0x7D, 0x41]` (all three marker bytes
present), encoder buffer 10, decoder buffer 4. -/
theorem frame_unframe_roundtrip_witness :
    (∃ framed, esp32_mcp_transport_frame_message [0x7E, 0x7F, 0x7D, 0x41] 10 = .ok framed ∧
      esp32_mcp_transport_unframe_message framed 4 = .ok [0x7E, 0x7F, 0x7D, 0x41]) ∧
    esp32_mcp_transport_frame_message [] 10 = .error .invalidArg :=
  frame_unframe_roundtrip [0x7E, 0x7F, 0x7D, 0x41] 10 4 (by decide)
    (by decide) (by decide) (by decide)

/-! ### Incremental frame decoder (`mcp_process_received_data`, esp32_transport.cpp)

The per-connection framing cursor of `esp32_mcp_transport_t`
(`in_frame`, `escape_next`, `partial_message`/`partial_length`) is isolated
into `DecoderState`; `acc` holds the accumulated frame bytes.  The byte loop
of `mcp_process_received_data` (the `enable_framing` path) becomes a step
function; emitted payloads and `stats.buffer_overruns` increments are
returned explicitly.  Message allocation is assumed to succeed (an
out-of-memory `NULL` from `esp32_mcp_transport_alloc_message` only drops the
emitted copy). -/

structure DecoderState where
  in_frame : Bool
  escape_next : Bool
  acc : List Nat
deriving DecidableEq, Repr

/-- One byte of the framed branch of `mcp_process_received_data`.  Returns
the new cursor, the completed payload if the byte closed a frame, and
whether a `buffer_overrun` was recorded.  `cap` is
`transport->config.rx_buffer_size`. -/
def mcp_process_byte (cap : Nat) (s : DecoderState) (b : Nat) :
    DecoderState × Option (List Nat) × Bool :=
  if s.escape_next then
    if s.acc.length < cap then
      ({ in_frame := s.in_frame, escape_next := false,
         acc := s.acc ++ [b ^^^ MCP_MESSAGE_ESCAPE_XOR] }, none, false)
    else
      ({ in_frame := false, escape_next := false, acc := [] }, none, true)
  else if b = MCP_MESSAGE_START_MARKER then
    ({ s with in_frame := true, acc := [] }, none, false)
  else if b = MCP_MESSAGE_END_MARKER then
    if s.in_frame ∧ s.acc ≠ [] then
      ({ s with in_frame := false, acc := [] }, some s.acc, false)
    else
      ({ s with in_frame := false, acc := [] }, none, false)
  else if b = MCP_MESSAGE_ESCAPE_CHAR then
    ({ s with escape_next := true }, none, false)
  else if s.in_frame then
    if s.acc.length < cap then
      ({ s with acc := s.acc ++ [b] }, none, false)
    else
      ({ in_frame := false, escape_next := false, acc := [] }, none, true)
  else
    (s, none, false)

/-- The whole byte loop of `mcp_process_received_data`: thread
`mcp_process_byte` through the received bytes left to right, collecting the
emitted payloads in order and counting `buffer_overruns`. -/
def mcp_process_received_data (cap : Nat) : DecoderState → List Nat →
    DecoderState × List (List Nat) × Nat
  | s, [] => (s, [], 0)
  | s, b :: rest =>
    let r := mcp_process_byte cap s b
    let t := mcp_process_received_data cap r.1 rest
    (t.1, r.2.1.toList ++ t.2.1, (if r.2.2 then 1 else 0) + t.2.2)

theorem mcp_process_received_data_cons (cap : Nat) (s : DecoderState) (b : Nat)
    (data : List Nat) :
    mcp_process_received_data cap s (b :: data) =
      (let r := mcp_process_byte cap s b
       let t := mcp_process_received_data cap r.1 data
       (t.1, r.2.1.toList ++ t.2.1, (if r.2.2 then 1 else 0) + t.2.2)) := rfl

theorem mcp_process_received_data_append (cap : Nat) (s : DecoderState)
    (l1 l2 : List Nat) :
    mcp_process_received_data cap s (l1 ++ l2) =
      (let r := mcp_process_received_data cap s l1
       let t := mcp_process_received_data cap r.1 l2
       (t.1, r.2.1 ++ t.2.1, r.2.2 + t.2.2)) := by
  induction l1 generalizing s with
  | nil => simp [mcp_process_received_data]
  | cons b rest ih =>
    simp only [List.cons_append, mcp_process_received_data_cons, ih]
    simp [List.append_assoc]
    omega

/-- Feeding the escaped body of a payload `x` to a decoder that is inside a
frame (no escape pending) with accumulated bytes `p` appends exactly `x`,
emits nothing and records no overrun, provided the accumulated length stays
within `cap`. -/
theorem mcp_process_received_data_frame_body (cap : Nat) (x p : List Nat)
    (h : p.length + x.length ≤ cap) :
    mcp_process_received_data cap ⟨true, false, p⟩ (frame_body x) =
      (⟨true, false, p ++ x⟩, [], 0) := by
  induction x generalizing p with
  | nil => simp [frame_body, mcp_process_received_data]
  | cons b rest ih =>
    simp only [List.length_cons] at h
    have hplen : p.length < cap := by omega
    by_cases hb : b = MCP_MESSAGE_START_MARKER ∨ b = MCP_MESSAGE_END_MARKER ∨
        b = MCP_MESSAGE_ESCAPE_CHAR
    · have h1 : mcp_process_byte cap ⟨true, false, p⟩ MCP_MESSAGE_ESCAPE_CHAR =
          (⟨true, true, p⟩, none, false) := by
        simp [mcp_process_byte, MCP_MESSAGE_START_MARKER, MCP_MESSAGE_END_MARKER,
          MCP_MESSAGE_ESCAPE_CHAR]
      have h2 : mcp_process_byte cap ⟨true, true, p⟩ (b ^^^ MCP_MESSAGE_ESCAPE_XOR) =
          (⟨true, false, p ++ [b]⟩, none, false) := by
        simp [mcp_process_byte, hplen, Nat.xor_cancel_right]
      rw [frame_body_cons, if_pos hb, List.cons_append, List.cons_append,
        List.nil_append]
      simp only [mcp_process_received_data, h1, h2, ih (p ++ [b]) (by simp; omega)]
      simp
    · push_neg at hb
      obtain ⟨h1, h2, h3⟩ := hb
      have hstep : mcp_process_byte cap ⟨true, false, p⟩ b =
          (⟨true, false, p ++ [b]⟩, none, false) := by
        simp [mcp_process_byte, h1, h2, h3, hplen]
      rw [frame_body_cons, if_neg (by tauto), List.cons_append, List.nil_append]
      simp only [mcp_process_received_data, hstep, ih (p ++ [b]) (by simp; omega)]
      simp

/-- C4: Incremental decoder overflow recovery.  An in-frame byte (either a
pending-escape byte or a regular data byte) arriving with the accumulator
already at the configured rx capacity records exactly one `buffer_overrun`,
emits no message, discards the accumulated bytes and leaves the decoder idle
(`in_frame = false`, `escape_next = false`, empty accumulator); from that
idle state, a subsequent well-formed frame carrying any non-empty payload
`x` with `len(x) ≤ cap` decodes to exactly `[x]` with no further overrun. -/
theorem decoder_overflow_recovery (cap : Nat) (s : DecoderState) (b : Nat)
    (x : List Nat)
    (hin : s.in_frame = true) (hfull : cap ≤ s.acc.length)
    (hb : s.escape_next = true ∨
      (s.escape_next = false ∧ b ≠ MCP_MESSAGE_START_MARKER ∧
        b ≠ MCP_MESSAGE_END_MARKER ∧ b ≠ MCP_MESSAGE_ESCAPE_CHAR))
    (hx : x ≠ []) (hxcap : x.length ≤ cap) :
    mcp_process_byte cap s b = (⟨false, false, []⟩, none, true) ∧
    mcp_process_received_data cap ⟨false, false, []⟩
        (MCP_MESSAGE_START_MARKER :: (frame_body x ++ [MCP_MESSAGE_END_MARKER])) =
      (⟨false, false, []⟩, [x], 0) := by
  constructor
  · have hnotlt : ¬ s.acc.length < cap := by omega
    rcases hb with hesc | ⟨hesc, h1, h2, h3⟩
    · simp [mcp_process_byte, hesc, hnotlt]
    · simp [mcp_process_byte, hesc, h1, h2, h3, hin, hnotlt]
  · have hbody := mcp_process_received_data_frame_body cap x [] (by simpa using hxcap)
    simp only [List.nil_append] at hbody
    have hstart : mcp_process_byte cap ⟨false, false, []⟩ MCP_MESSAGE_START_MARKER =
        (⟨true, false, []⟩, none, false) := by
      simp [mcp_process_byte]
    have hend : mcp_process_byte cap ⟨true, false, x⟩ MCP_MESSAGE_END_MARKER =
        (⟨false, false, []⟩, some x, false) := by
      simp [mcp_process_byte, MCP_MESSAGE_START_MARKER, MCP_MESSAGE_END_MARKER, hx]
    simp [mcp_process_received_data, mcp_process_received_data_append,
      hstart, hbody, hend]

/-- Witness for C4: capacity 2, accumulator already `[65, 66]`, overflowing
data byte `67`, recovery frame payload `[0x7E]` (an escaped marker byte). -/
theorem decoder_overflow_recovery_witness :
    mcp_process_byte 2 ⟨true, false, [65, 66]⟩ 67 = (⟨false, false, []⟩, none, true) ∧
    mcp_process_received_data 2 ⟨false, false, []⟩
        (MCP_MESSAGE_START_MARKER :: (frame_body [0x7E] ++ [MCP_MESSAGE_END_MARKER])) =
      (⟨false, false, []⟩, [[0x7E]], 0) :=
  decoder_overflow_recovery 2 ⟨true, false, [65, 66]⟩ 67 [0x7E] rfl (by decide)
    (Or.inr (by decide)) (by decide) (by decide)

/-- C10: The one-shot `esp32_mcp_transport_unframe_message` accepts the
two-byte frame `[0x7E, 0x7F]` and returns success with an empty payload,
for any output buffer size; yet the incremental decoder emits no message
when an end marker reaches an empty accumulator, and a successful
`esp32_mcp_transport_frame_message` never produces that two-byte frame. -/
theorem unframe_accepts_minimal_frame (osz cap : Nat) :
    esp32_mcp_transport_unframe_message
        [MCP_MESSAGE_START_MARKER, MCP_MESSAGE_END_MARKER] osz = .ok [] ∧
    (∀ s : DecoderState, s.escape_next = false → s.acc = [] →
      mcp_process_byte cap s MCP_MESSAGE_END_MARKER =
        ({ s with in_frame := false, acc := [] }, none, false)) ∧
    (∀ (x : List Nat) (fsz : Nat) (out : List Nat),
      esp32_mcp_transport_frame_message x fsz = .ok out →
      out ≠ [MCP_MESSAGE_START_MARKER, MCP_MESSAGE_END_MARKER]) := by
  refine ⟨rfl, ?_, ?_⟩
  · intro s hesc hacc
    simp [mcp_process_byte, hesc, hacc, MCP_MESSAGE_START_MARKER,
      MCP_MESSAGE_END_MARKER]
  · intro x fsz out hok heq
    rw [esp32_mcp_transport_frame_message] at hok
    by_cases hx : x.length = 0
    · rw [if_pos hx] at hok
      exact absurd hok (by simp)
    · rw [if_neg hx] at hok
      by_cases hsz : fsz < x.length * 2 + 2
      · rw [if_pos hsz] at hok
        exact absurd hok (by simp)
      · rw [if_neg hsz] at hok
        have hout : out = MCP_MESSAGE_START_MARKER ::
            (frame_body x ++ [MCP_MESSAGE_END_MARKER]) := by
          cases hok
          rfl
        have h1 := frame_body_length_le x
        have h2 : out.length = (frame_body x).length + 2 := by
          rw [hout]; simp
        rw [heq] at h2
        simp only [List.length_cons, List.length_nil] at h2
        omega

/-- Witness for C10 at output size 0, capacity 8, decoder state inside an
empty frame, and encoder input `[65]`. -/
theorem unframe_accepts_minimal_frame_witness :
    esp32_mcp_transport_unframe_message
        [MCP_MESSAGE_START_MARKER, MCP_MESSAGE_END_MARKER] 0 = .ok [] ∧
    mcp_process_byte 8 ⟨true, false, []⟩ MCP_MESSAGE_END_MARKER =
      (⟨false, false, []⟩, none, false) ∧
    [MCP_MESSAGE_START_MARKER, 65, MCP_MESSAGE_END_MARKER] ≠
      [MCP_MESSAGE_START_MARKER, MCP_MESSAGE_END_MARKER] :=
  ⟨(unframe_accepts_minimal_frame 0 8).1,
   (unframe_accepts_minimal_frame 0 8).2.1 ⟨true, false, []⟩ rfl rfl,
   (unframe_accepts_minimal_frame 0 8).2.2 [65] 4
     [MCP_MESSAGE_START_MARKER, 65, MCP_MESSAGE_END_MARKER] rfl⟩

/-! ### Transport lifecycle (`esp32_mcp_transport_stop` / `_deinit`,
esp32_transport.cpp)

Only the fields read or written by stop/deinit are modelled.  A transport
handle is `Option Esp32Transport`: `none` is the NULL handle (rejected with
`ESP_ERR_INVALID_ARG`), and a deinitialized (freed) handle becomes `none`.
The FreeRTOS task handles become booleans (task exists / deleted). -/

/-- `mcp_transport_state_t` (esp32_transport.h). -/
inductive mcp_transport_state where
  | DISCONNECTED
  | CONNECTING
  | CONNECTED
  | DISCONNECTING
  | ERROR
deriving DecidableEq, Repr

structure Esp32Transport where
  running : Bool
  state : mcp_transport_state
  rx_task : Bool
  tx_task : Bool
deriving DecidableEq, Repr

/-- `esp32_mcp_transport_stop`: NULL handle is `ESP_ERR_INVALID_ARG`; a
transport that is not running returns `ESP_OK` unchanged; otherwise the
state passes through `DISCONNECTING`, `running` is cleared, both tasks are
deleted, and the final state is `DISCONNECTED`, returning `ESP_OK`. -/
def esp32_mcp_transport_stop : Option Esp32Transport → Except EspErr Esp32Transport
  | none => .error .invalidArg
  | some t =>
    if !t.running then
      .ok t
    else
      .ok { running := false, state := .DISCONNECTED, rx_task := false,
            tx_task := false }

/-- The state of the transport after the `if (transport->running)
esp32_mcp_transport_stop(...)` step at the top of
`esp32_mcp_transport_deinit` (the C discards the returned status). -/
def deinit_after_stop (t : Esp32Transport) : Esp32Transport :=
  if t.running then
    match esp32_mcp_transport_stop (some t) with
    | .ok t' => t'
    | .error _ => t
  else t

/-- `esp32_mcp_transport_deinit`: NULL handle is `ESP_ERR_INVALID_ARG`;
otherwise stop the transport if it is still running, free the UART driver,
buffers, queue and mutex, free the structure (the handle becomes `none`)
and return `ESP_OK`. -/
def esp32_mcp_transport_deinit : Option Esp32Transport →
    Except EspErr (Option Esp32Transport)
  | none => .error .invalidArg
  | some t =>
    let _stopped := deinit_after_stop t
    .ok none

/-- C7: Lifecycle idempotence.  Stopping a transport that is not running
returns `ESP_OK` without modifying it; after any successful stop a second
stop succeeds and changes nothing; deinit of any non-NULL transport —
already stopped or still running (in which case deinit performs the stop
itself, a stop that always reports `ESP_OK`) — succeeds and frees the
handle.  Stop-when-stopped and deinit-after-stop are no-op successes,
never errors. -/
theorem transport_lifecycle_idempotent (t : Esp32Transport)
    (hstopped : t.running = false) :
    esp32_mcp_transport_stop (some t) = .ok t ∧
    (∀ u u' : Esp32Transport, esp32_mcp_transport_stop (some u) = .ok u' →
      esp32_mcp_transport_stop (some u') = .ok u') ∧
    esp32_mcp_transport_deinit (some t) = .ok none ∧
    (∀ u : Esp32Transport, u.running = true →
      esp32_mcp_transport_stop (some u) = .ok ⟨false, .DISCONNECTED, false, false⟩ ∧
      esp32_mcp_transport_deinit (some u) = .ok none) := by
  refine ⟨?_, ?_, rfl, ?_⟩
  · simp [esp32_mcp_transport_stop, hstopped]
  · intro u u' hok
    have hu' : u'.running = false := by
      by_cases hr : u.running
      · simp [esp32_mcp_transport_stop, hr] at hok
        rw [← hok]
      · simp [esp32_mcp_transport_stop, hr] at hok
        rw [← hok]
        simpa using hr
    simp [esp32_mcp_transport_stop, hu']
  · intro u hrun
    constructor
    · simp [esp32_mcp_transport_stop, hrun]
    · rfl

/-- Witness for C7 at the stopped transport
`⟨false, DISCONNECTED, false, false⟩` and, for the running half, at
`⟨true, CONNECTED, true, true⟩`. -/
theorem transport_lifecycle_idempotent_witness :
    esp32_mcp_transport_stop (some ⟨false, .DISCONNECTED, false, false⟩) =
      .ok ⟨false, .DISCONNECTED, false, false⟩ ∧
    esp32_mcp_transport_deinit (some ⟨false, .DISCONNECTED, false, false⟩) =
      .ok none ∧
    esp32_mcp_transport_stop (some ⟨true, .CONNECTED, true, true⟩) =
      .ok ⟨false, .DISCONNECTED, false, false⟩ ∧
    esp32_mcp_transport_deinit (some ⟨true, .CONNECTED, true, true⟩) = .ok none :=
  ⟨(transport_lifecycle_idempotent ⟨false, .DISCONNECTED, false, false⟩ rfl).1,
   (transport_lifecycle_idempotent ⟨false, .DISCONNECTED, false, false⟩ rfl).2.2.1,
   ((transport_lifecycle_idempotent ⟨false, .DISCONNECTED, false, false⟩ rfl).2.2.2
     ⟨true, .CONNECTED, true, true⟩ rfl).1,
   ((transport_lifecycle_idempotent ⟨false, .DISCONNECTED, false, false⟩ rfl).2.2.2
     ⟨true, .CONNECTED, true, true⟩ rfl).2⟩

/-! ### Session state machine (`CMCPSession`, mcp_session.cpp)

`Connect`/`Disconnect` run entirely under the session mutex; the lock
acquisition (1 s timeout) is the `lock_ok` argument — a failed acquisition
returns `-1` untouched.  Within a call the state passes transiently through
`CONNECTING`/`DISCONNECTING`; the embedding returns the state observable
after the call.  `esp_timer_get_time()` is the `now` argument. -/

/-- `SessionState` (mcp_session.cpp). -/
inductive SessionState where
  | DISCONNECTED
  | CONNECTING
  | CONNECTED
  | DISCONNECTING
  | ERROR
deriving DecidableEq, Repr

/-- `SessionStats` (mcp_session.cpp). -/
structure SessionStats where
  messages_sent : Nat
  messages_received : Nat
  requests_processed : Nat
  errors_count : Nat
  session_start_time : Nat
  last_activity_time : Nat
deriving DecidableEq, Repr

/-- The observable fields of `CMCPSession`. -/
structure CMCPSession where
  m_state : SessionState
  m_session_id : Nat
  m_stats : SessionStats
deriving DecidableEq, Repr

/-- `CMCPSession::Connect`: mutex failure returns `-1`; otherwise the state
becomes `CONNECTED` (via a transient `CONNECTING`), `last_activity_time` is
set to the current time, and `0` is returned. -/
def CMCPSession.Connect (s : CMCPSession) (now : Nat) (lock_ok : Bool) :
    Int × CMCPSession :=
  if !lock_ok then
    (-1, s)
  else
    (0, { s with m_state := .CONNECTED,
                 m_stats := { s.m_stats with last_activity_time := now } })

/-- `CMCPSession::Disconnect`: mutex failure returns `-1`; otherwise the
state becomes `DISCONNECTED` (via a transient `DISCONNECTING`) and `0` is
returned; no counter or timestamp is touched. -/
def CMCPSession.Disconnect (s : CMCPSession) (lock_ok : Bool) :
    Int × CMCPSession :=
  if !lock_ok then
    (-1, s)
  else
    (0, { s with m_state := .DISCONNECTED })

/-- C8 counterexample: `Connect()` on a session that is already `CONNECTED`
does have a side effect — it refreshes `last_activity_time` — so the call is
not observable-state-preserving as the claim states.  Here the session has
`last_activity_time = 5` and the clock reads `6`. -/
theorem session_connect_not_side_effect_free :
    (CMCPSession.Connect ⟨.CONNECTED, 7, ⟨1, 2, 3, 4, 100, 5⟩⟩ 6 true).1 = 0 ∧
    (CMCPSession.Connect ⟨.CONNECTED, 7, ⟨1, 2, 3, 4, 100, 5⟩⟩ 6 true).2 ≠
      ⟨.CONNECTED, 7, ⟨1, 2, 3, 4, 100, 5⟩⟩ ∧
    ((CMCPSession.Connect ⟨.CONNECTED, 7, ⟨1, 2, 3, 4, 100, 5⟩⟩ 6
        true).2.m_stats.last_activity_time = 6) := by
  refine ⟨rfl, ?_, rfl⟩
  intro h
  have := congrArg (fun s => s.m_stats.last_activity_time) h
  simp [CMCPSession.Connect] at this

/-- C8 (amended): provided the session mutex is acquired, `Connect()` on an
already-connected session returns success, leaves the state `CONNECTED` and
every counter unchanged, but refreshes `last_activity_time` to the current
time; `Disconnect()` on an already-disconnected session returns success with
the whole observable session — state, counters and last-activity timestamp —
unchanged. -/
theorem session_idempotence_amended :
    (∀ (s : CMCPSession) (now : Nat), s.m_state = .CONNECTED →
      (s.Connect now true).1 = 0 ∧
      (s.Connect now true).2.m_state = .CONNECTED ∧
      (s.Connect now true).2.m_stats =
        { s.m_stats with last_activity_time := now }) ∧
    (∀ s : CMCPSession, s.m_state = .DISCONNECTED →
      s.Disconnect true = (0, s)) := by
  constructor
  · intro s now _
    exact ⟨rfl, rfl, rfl⟩
  · intro s hs
    cases s
    simp_all [CMCPSession.Disconnect]

/-- Witness for C8 (amended) at a connected and a disconnected session. -/
theorem session_idempotence_amended_witness :
    ((CMCPSession.Connect ⟨.CONNECTED, 7, ⟨1, 2, 3, 4, 100, 5⟩⟩ 6 true).1 = 0 ∧
     (CMCPSession.Connect ⟨.CONNECTED, 7, ⟨1, 2, 3, 4, 100, 5⟩⟩ 6
       true).2.m_state = .CONNECTED ∧
     (CMCPSession.Connect ⟨.CONNECTED, 7, ⟨1, 2, 3, 4, 100, 5⟩⟩ 6
       true).2.m_stats = ⟨1, 2, 3, 4, 100, 6⟩) ∧
    CMCPSession.Disconnect ⟨.DISCONNECTED, 8, ⟨1, 2, 3, 4, 100, 5⟩⟩ true =
      (0, ⟨.DISCONNECTED, 8, ⟨1, 2, 3, 4, 100, 5⟩⟩) :=
  ⟨session_idempotence_amended.1 ⟨.CONNECTED, 7, ⟨1, 2, 3, 4, 100, 5⟩⟩ 6 rfl,
   session_idempotence_amended.2 ⟨.DISCONNECTED, 8, ⟨1, 2, 3, 4, 100, 5⟩⟩ rfl⟩

/-! ### JSON value model (the cJSON collaborator library)

The spec treats the concrete JSON tree library (cJSON) as an external
collaborator providing parse/print/object-navigation primitives, so it is
modelled here as a Lean value tree.  `cJSON_GetObjectItem` performs a
case-insensitive key lookup returning the first match (NULL → `none`). -/

inductive Json where
  | null : Json
  | bool : Bool → Json
  | num : Int → Json
  | str : String → Json
  | arr : List Json → Json
  | obj : List (String × Json) → Json
deriving Repr

/-- ASCII lower-casing as done by cJSON's case-insensitive compare. -/
def asciiLower (c : Char) : Char :=
  if 'A' ≤ c ∧ c ≤ 'Z' then Char.ofNat (c.toNat + 32) else c

/-- cJSON's case-insensitive string comparison, as a boolean equality. -/
def case_insensitive_eq (a b : String) : Bool :=
  a.data.map asciiLower == b.data.map asciiLower

/-- `cJSON_GetObjectItem(object, key)`: first field whose name matches the
key case-insensitively, `none` for a missing field or a non-object. -/
def cJSON_GetObjectItem : Json → String → Option Json
  | .obj fields, key => (fields.find? (fun f => case_insensitive_eq f.1 key)).map (·.2)
  | _, _ => none

/-- `cJSON_GetObjectItem` lifted over a possibly-NULL object pointer
(cJSON returns NULL when handed NULL). -/
def getObjectItemO (o : Option Json) (key : String) : Option Json :=
  o.bind (fun j => cJSON_GetObjectItem j key)

/-- `cJSON_IsString`. -/
def cJSON_IsString : Json → Bool
  | .str _ => true
  | _ => false

/-! ### Message model (`CMCPMessage`, mcp_message.cpp) -/

/-- `MessageType` (mcp_message.cpp): `REQUEST` is the first enumerator, so
a zero-initialized header (`m_header{}` in the constructor) carries
`MESSAGE_TYPE_REQUEST` before any classification runs. -/
inductive MessageType where
  | REQUEST
  | RESPONSE
  | NOTIFICATION
  | ERROR
deriving DecidableEq, Repr

/-- `CMCPMessage::GetMethod`: the `method` item if present and a string. -/
def CMCPMessage.GetMethod (j : Json) : Option String :=
  match cJSON_GetObjectItem j "method" with
  | some (.str s) => some s
  | _ => none

/-- `CMCPMessage::IsRequest`: method present as a string (the `id` field is
not consulted). -/
def CMCPMessage.IsRequest (j : Json) : Bool :=
  (CMCPMessage.GetMethod j).isSome

/-- `CMCPMessage::IsResponse`: a `result` or an `error` item is present. -/
def CMCPMessage.IsResponse (j : Json) : Bool :=
  (cJSON_GetObjectItem j "result").isSome || (cJSON_GetObjectItem j "error").isSome

/-- `CMCPMessage::IsNotification`: method present as a string and no `id`
item. -/
def CMCPMessage.IsNotification (j : Json) : Bool :=
  (CMCPMessage.GetMethod j).isSome && (cJSON_GetObjectItem j "id").isNone

/-- The type assignment of `CMCPMessage::ExtractJsonInfo`: `method`
present → `REQUEST` if `id` present else `NOTIFICATION`; otherwise
`result`/`error` present → `ERROR` if `error` present else `RESPONSE`;
otherwise `m_header.type` keeps its previous value. -/
def ExtractJsonInfo_type (j : Json) (prev : MessageType) : MessageType :=
  let id := cJSON_GetObjectItem j "id"
  let method := cJSON_GetObjectItem j "method"
  let result := cJSON_GetObjectItem j "result"
  let error := cJSON_GetObjectItem j "error"
  if method.isSome then
    (if id.isSome then .REQUEST else .NOTIFICATION)
  else if result.isSome || error.isSome then
    (if error.isSome then .ERROR else .RESPONSE)
  else
    prev

/-- The type reported by `GetType()` for a freshly decoded message:
`CMCPMessage(json, len)` zero-initializes the header
(`MESSAGE_TYPE_REQUEST`), and `ParseJson()` then runs `ExtractJsonInfo`. -/
def parsedMessageType (j : Json) : MessageType :=
  ExtractJsonInfo_type j .REQUEST

/-- C2 counterexample.  First: the message `{}` — no `method`, no `result`,
no `error` — is not marked invalid: after decoding, `GetType()` reports
`MESSAGE_TYPE_REQUEST` (the zero-initialized default that `ExtractJsonInfo`
leaves untouched), although `method`/`id` are absent.  Second: the cited
predicates are not mutually exclusive: `{"method":"ping"}` satisfies both
`IsRequest()` and `IsNotification()` at once. -/
theorem message_classification_counterexample :
    (parsedMessageType (Json.obj []) = .REQUEST ∧
      cJSON_GetObjectItem (Json.obj []) "method" = none ∧
      cJSON_GetObjectItem (Json.obj []) "result" = none ∧
      cJSON_GetObjectItem (Json.obj []) "error" = none) ∧
    (CMCPMessage.IsRequest (Json.obj [("method", Json.str "ping")]) = true ∧
      CMCPMessage.IsNotification (Json.obj [("method", Json.str "ping")]) = true) :=
  ⟨⟨rfl, rfl, rfl, rfl⟩, ⟨rfl, rfl⟩⟩

/-- C2 (amended): the single type assigned by `ExtractJsonInfo` follows the
stated priority order — `method` and `id` present → Request, `method`
present and `id` absent → Notification, else `error` present →
ErrorResponse, else `result` present → Response — so at most one applies;
but a message with none of these fields keeps its previous type (the
zero-initialized default `REQUEST` for a freshly decoded message) instead of
being marked invalid, and the `IsRequest`/`IsNotification` predicates
overlap: `IsNotification` is exactly `IsRequest` combined with an absent
`id`. -/
theorem message_classification_amended (j : Json) (prev : MessageType) :
    ExtractJsonInfo_type j prev =
      (if (cJSON_GetObjectItem j "method").isSome then
        (if (cJSON_GetObjectItem j "id").isSome then .REQUEST else .NOTIFICATION)
      else if (cJSON_GetObjectItem j "error").isSome then .ERROR
      else if (cJSON_GetObjectItem j "result").isSome then .RESPONSE
      else prev) ∧
    CMCPMessage.IsNotification j =
      (CMCPMessage.IsRequest j && (cJSON_GetObjectItem j "id").isNone) := by
  constructor
  · rw [ExtractJsonInfo_type]
    by_cases hm : (cJSON_GetObjectItem j "method").isSome
    · simp [hm]
    · by_cases he : (cJSON_GetObjectItem j "error").isSome
      · simp [hm, he]
      · by_cases hr : (cJSON_GetObjectItem j "result").isSome
        · simp [hm, he, hr]
        · simp [hm, he, hr]
  · rfl

/-! ### JSON printing (the cJSON `cJSON_Print` collaborator)

`cJSON_Print` is modelled by a concrete serializer; only the length of the
printed text matters to the embedded code (the `strlen(response_str) <
output_size` buffer check in `mcp_send_response`).  `cJSON_Parse` applied to
a `cJSON_Print` output recovers the printed value (library round-trip),
which is how the `result_str` strings produced inside `mcp_handle_request`
are modelled below. -/

mutual

def printJson : Json → String
  | .null => "null"
  | .bool true => "true"
  | .bool false => "false"
  | .num n => toString n
  | .str s => "\"" ++ s ++ "\""
  | .arr xs => "[" ++ printJsonArr xs ++ "]"
  | .obj fs => "\x7b" ++ printJsonObjFields fs ++ "\x7d"

def printJsonArr : List Json → String
  | [] => ""
  | [x] => printJson x
  | x :: xs => printJson x ++ "," ++ printJsonArr xs

def printJsonObjFields : List (String × Json) → String
  | [] => ""
  | [(k, v)] => "\"" ++ k ++ "\":" ++ printJson v
  | (k, v) :: fs => "\"" ++ k ++ "\":" ++ printJson v ++ "," ++ printJsonObjFields fs

end

/-! ### Simple MCP server (`mcp_server_simple.c`)

`mcp_server_process_line` parses the input line with `cJSON_Parse` and
dispatches it; the embedding receives the parse result directly
(`none` = parse failure).  Tool handlers (`mcp_tool_*_execute`,
mcp_tools_simple.c) write a C string into a bounded buffer and return
`esp_err_t`; an executor is modelled as `String → Option (Json ⊕ String)`:
`none` is a non-`ESP_OK` return, `some (.inl j)` a result text that
`cJSON_Parse` parses as `j`, `some (.inr s)` a result text that does not
parse (added verbatim as a JSON string by `mcp_send_response`).  The mutex
never fails in the embedding (a 100 ms `xSemaphoreTake` failure only skips
one statistics update).  `uptime_ms` is timer-derived and not modelled. -/

structure mcp_server_stats_t where
  messages_received : Nat
  messages_sent : Nat
  requests_processed : Nat
  errors_count : Nat
  tools_executed : Nat
deriving DecidableEq, Repr

structure mcp_tool_def_t where
  name : String
  description : String
  execute : String → Option (Json ⊕ String)

structure mcp_server_simple where
  running : Bool
  tools : List mcp_tool_def_t
  stats : mcp_server_stats_t

/-- The tool-enable flags of `mcp_server_config_t`. -/
structure mcp_server_config_t where
  enable_echo_tool : Bool
  enable_display_tool : Bool
  enable_gpio_tool : Bool
  enable_system_tool : Bool
deriving DecidableEq, Repr

/-- `mcp_register_builtin_tools`: registers echo, display_control,
gpio_control and system_info, in that order, each guarded by its config
flag.  The executors are the externally-implemented tool handlers. -/
def mcp_register_builtin_tools (config : mcp_server_config_t)
    (echo_exec display_exec gpio_exec system_exec :
      String → Option (Json ⊕ String)) : List mcp_tool_def_t :=
  (if config.enable_echo_tool then
    [⟨"echo", "Echo back the input parameters", echo_exec⟩] else []) ++
  (if config.enable_display_tool then
    [⟨"display_control", "Control ST7789 display", display_exec⟩] else []) ++
  (if config.enable_gpio_tool then
    [⟨"gpio_control", "Control GPIO pins", gpio_exec⟩] else []) ++
  (if config.enable_system_tool then
    [⟨"system_info", "Get system information", system_exec⟩] else [])

/-- `request_id = id ? (uint32_t)cJSON_GetNumberValue(id) : 0`
(mcp_handle_request).  A numeric `id` is cast to `uint32_t`; for a
non-numeric `id` `cJSON_GetNumberValue` yields NaN whose cast is
unspecified, modelled as 0 (no theorem below depends on that case). -/
def request_id_of (id : Option Json) : Nat :=
  match id with
  | some (.num n) => (n % 4294967296).toNat
  | some _ => 0
  | none => 0

/-- `mcp_send_response`: builds `{"jsonrpc":"2.0","id":<id>,...}` with an
`error` object (`code` -32000) when an error message is given, else the
parsed result, else the raw result text as a string, else a null `result`;
writes it only if the printed text fits `output_size`
(`ESP_ERR_INVALID_SIZE` otherwise). -/
def mcp_send_response (id : Nat) (result_json : Option (Json ⊕ String))
    (error_msg : Option String) (output_size : Nat) : Except EspErr Json :=
  let response := Json.obj
    ([("jsonrpc", Json.str "2.0"), ("id", Json.num id)] ++
     (match error_msg with
      | some msg =>
        [("error", Json.obj [("code", Json.num (-32000)), ("message", Json.str msg)])]
      | none =>
        match result_json with
        | some (.inl r) => [("result", r)]
        | some (.inr s) => [("result", Json.str s)]
        | none => [("result", Json.null)]))
  if (printJson response).length < output_size then .ok response
  else .error .invalidSize

/-- The `tools/list` result assembled by `mcp_handle_request`: an array of
`{name, description}` objects, one per registered tool, in registry order. -/
def tools_list_result (tools : List mcp_tool_def_t) : Json :=
  Json.obj [("tools", Json.arr (tools.map (fun t =>
    Json.obj [("name", Json.str t.name), ("description", Json.str t.description)])))]

/-- `mcp_handle_request`: parse failure → "Parse error"; missing/non-string
method → "Missing method"; `tools/list` → registry snapshot; `tools/call` →
find the tool by exact name, execute it, count `tools_executed` on handler
success (before the send result is known), or reply "Tool execution
failed" / "Tool not found" / "Missing tool name"; any other method →
"Unknown method".  Returns the send result and the updated server. -/
def mcp_handle_request (server : mcp_server_simple) (parsed : Option Json)
    (output_size : Nat) : Except EspErr Json × mcp_server_simple :=
  match parsed with
  | none => (mcp_send_response 0 none (some "Parse error") output_size, server)
  | some json =>
    match cJSON_GetObjectItem json "method" with
    | some (.str method_str) =>
      let id := cJSON_GetObjectItem json "id"
      let params := cJSON_GetObjectItem json "params"
      let request_id := request_id_of id
      if method_str = "tools/list" then
        (mcp_send_response request_id (some (.inl (tools_list_result server.tools)))
          none output_size, server)
      else if method_str = "tools/call" then
        match getObjectItemO params "name" with
        | some (.str tool_name) =>
          let args_str := match getObjectItemO params "arguments" with
            | some a => printJson a
            | none => "\x7b\x7d"
          match server.tools.find? (fun t => t.name = tool_name) with
          | some tool =>
            match tool.execute args_str with
            | some result_out =>
              (mcp_send_response request_id (some result_out) none output_size,
               { server with stats := { server.stats with
                   tools_executed := server.stats.tools_executed + 1 } })
            | none =>
              (mcp_send_response request_id none (some "Tool execution failed")
                output_size, server)
          | none =>
            (mcp_send_response request_id none (some "Tool not found")
              output_size, server)
        | _ =>
          (mcp_send_response request_id none (some "Missing tool name")
            output_size, server)
      else
        (mcp_send_response request_id none (some "Unknown method") output_size,
         server)
    | _ => (mcp_send_response 0 none (some "Missing method") output_size, server)

/-- `mcp_server_process_line`: zero output size is `ESP_ERR_INVALID_ARG`, a
stopped server `ESP_ERR_INVALID_STATE`; otherwise `messages_received` is
counted, the request is handled, and `messages_sent`/`requests_processed`
(on `ESP_OK`) or `errors_count` (otherwise) are updated. -/
def mcp_server_process_line (server : mcp_server_simple) (parsed_line : Option Json)
    (output_size : Nat) : Except EspErr Json × mcp_server_simple :=
  if output_size = 0 then
    (.error .invalidArg, server)
  else if !server.running then
    (.error .invalidState, server)
  else
    let server1 := { server with stats := { server.stats with
        messages_received := server.stats.messages_received + 1 } }
    let r := mcp_handle_request server1 parsed_line output_size
    match r.1 with
    | .ok resp =>
      (.ok resp, { r.2 with stats := { r.2.stats with
          messages_sent := r.2.stats.messages_sent + 1,
          requests_processed := r.2.stats.requests_processed + 1 } })
    | .error e =>
      (.error e, { r.2 with stats := { r.2.stats with
          errors_count := r.2.stats.errors_count + 1 } })

/-- The error reply `{"jsonrpc":"2.0","id":<id>,"error":{"code":-32000,
"message":<msg>}}` produced by `mcp_send_response` for an error message. -/
def mcp_error_response (id : Nat) (msg : String) : Json :=
  Json.obj [("jsonrpc", Json.str "2.0"), ("id", Json.num id),
    ("error", Json.obj [("code", Json.num (-32000)), ("message", Json.str msg)])]

theorem mcp_send_response_error_msg (id : Nat) (msg : String) (osz : Nat) :
    mcp_send_response id none (some msg) osz =
      if (printJson (mcp_error_response id msg)).length < osz then
        .ok (mcp_error_response id msg)
      else .error .invalidSize := rfl

/-- A dummy executor standing in for a concrete tool handler. -/
def dummy_tool_exec : String → Option (Json ⊕ String) := fun _ => some (.inr "ok")

/-- The concrete server used by the closed counterexample/witness theorems:
running, echo and display_control registered, all statistics zero. -/
def demo_server : mcp_server_simple :=
  { running := true,
    tools := mcp_register_builtin_tools ⟨true, true, false, false⟩
      dummy_tool_exec dummy_tool_exec dummy_tool_exec dummy_tool_exec,
    stats := ⟨0, 0, 0, 0, 0⟩ }

/-- A concrete `tools/call` request naming the unregistered tool
`nonexistent`. -/
def unknown_tool_request : Json :=
  Json.obj [("jsonrpc", Json.str "2.0"), ("id", Json.num 1),
    ("method", Json.str "tools/call"),
    ("params", Json.obj [("name", Json.str "nonexistent")])]

/-- C3 counterexample.  On a `tools/call` for an unregistered tool the
server replies with the error message "Tool not found" and `tools_executed`
stays 0 — but `errors_count` stays 0 as well (the claim says it increases
by exactly 1): the error reply is delivered through `mcp_send_response`
with `ESP_OK`, so `mcp_server_process_line` counts it under
`messages_sent`/`requests_processed`, not under `errors_count`. -/
theorem unknown_tool_errors_counterexample :
    (mcp_server_process_line demo_server (some unknown_tool_request) 256).1 =
      .ok (mcp_error_response 1 "Tool not found") ∧
    (mcp_server_process_line demo_server (some unknown_tool_request)
      256).2.stats.tools_executed = 0 ∧
    (mcp_server_process_line demo_server (some unknown_tool_request)
      256).2.stats.errors_count = 0 ∧
    (mcp_server_process_line demo_server (some unknown_tool_request)
      256).2.stats.requests_processed = 1 :=
  ⟨rfl, rfl, rfl, rfl⟩

/-- C3 (amended): a `tools/call` naming an unregistered tool gets an error
reply whose `error.message` is "Tool not found", `tools_executed` does not
increase, and `errors_count` does not increase either — the reply is a
successfully written response, so `messages_received`, `messages_sent` and
`requests_processed` each increase by exactly 1 instead. -/
theorem unknown_tool_amended (server : mcp_server_simple) (json : Json)
    (osz : Nat) (tool_name : String)
    (hrun : server.running = true) (hosz : osz ≠ 0)
    (hmethod : cJSON_GetObjectItem json "method" = some (.str "tools/call"))
    (hname : getObjectItemO (cJSON_GetObjectItem json "params") "name" =
      some (.str tool_name))
    (hnotool : server.tools.find? (fun t => t.name = tool_name) = none)
    (hfit : (printJson (mcp_error_response
      (request_id_of (cJSON_GetObjectItem json "id")) "Tool not found")).length < osz) :
    mcp_server_process_line server (some json) osz =
      (.ok (mcp_error_response (request_id_of (cJSON_GetObjectItem json "id"))
        "Tool not found"),
       { server with stats := { server.stats with
           messages_received := server.stats.messages_received + 1,
           messages_sent := server.stats.messages_sent + 1,
           requests_processed := server.stats.requests_processed + 1 } }) := by
  have hh : mcp_handle_request
      { server with stats := { server.stats with
          messages_received := server.stats.messages_received + 1 } }
      (some json) osz =
      (.ok (mcp_error_response (request_id_of (cJSON_GetObjectItem json "id"))
        "Tool not found"),
       { server with stats := { server.stats with
           messages_received := server.stats.messages_received + 1 } }) := by
    rw [mcp_handle_request]
    rw [hmethod]
    simp only [hname, hnotool, mcp_send_response_error_msg, if_pos hfit]
    simp
  rw [mcp_server_process_line, if_neg hosz, if_neg (by simp [hrun])]
  simp only [hh]

/-- Witness for C3 (amended) at the demo server and the concrete
`nonexistent` `tools/call` request. -/
theorem unknown_tool_amended_witness :
    mcp_server_process_line demo_server (some unknown_tool_request) 256 =
      (.ok (mcp_error_response 1 "Tool not found"),
       { demo_server with stats := { demo_server.stats with
           messages_received := demo_server.stats.messages_received + 1,
           messages_sent := demo_server.stats.messages_sent + 1,
           requests_processed := demo_server.stats.requests_processed + 1 } }) :=
  unknown_tool_amended demo_server unknown_tool_request 256 "nonexistent"
    rfl (by decide) rfl rfl rfl (by decide)

/-- The full `tools/list` reply: `{"jsonrpc":"2.0","id":<id>,
"result":{"tools":[{name,description} ...]}}` with one entry per registered
tool, in registry order. -/
def tools_list_response (tools : List mcp_tool_def_t) (id : Nat) : Json :=
  Json.obj [("jsonrpc", Json.str "2.0"), ("id", Json.num id),
    ("result", tools_list_result tools)]

theorem mcp_send_response_result_json (id : Nat) (r : Json) (osz : Nat) :
    mcp_send_response id (some (.inl r)) none osz =
      if (printJson (Json.obj [("jsonrpc", Json.str "2.0"), ("id", Json.num id),
          ("result", r)])).length < osz then
        .ok (Json.obj [("jsonrpc", Json.str "2.0"), ("id", Json.num id),
          ("result", r)])
      else .error .invalidSize := rfl

/-- C5: `tools/list` returns exactly the registered tools — name and
description per registry entry, in registration order — leaves the registry
untouched, and the only statistics changed are the generic per-message
counters (`messages_received`, `messages_sent`, `requests_processed`,
each +1); `tools_executed` and `errors_count` are unchanged. -/
theorem tools_list_ok (server : mcp_server_simple) (json : Json) (osz : Nat)
    (hrun : server.running = true) (hosz : osz ≠ 0)
    (hmethod : cJSON_GetObjectItem json "method" = some (.str "tools/list"))
    (hfit : (printJson (tools_list_response server.tools
      (request_id_of (cJSON_GetObjectItem json "id")))).length < osz) :
    mcp_server_process_line server (some json) osz =
      (.ok (tools_list_response server.tools
        (request_id_of (cJSON_GetObjectItem json "id"))),
       { server with stats := { server.stats with
           messages_received := server.stats.messages_received + 1,
           messages_sent := server.stats.messages_sent + 1,
           requests_processed := server.stats.requests_processed + 1 } }) := by
  have hh : mcp_handle_request
      { server with stats := { server.stats with
          messages_received := server.stats.messages_received + 1 } }
      (some json) osz =
      (.ok (tools_list_response server.tools
        (request_id_of (cJSON_GetObjectItem json "id"))),
       { server with stats := { server.stats with
           messages_received := server.stats.messages_received + 1 } }) := by
    rw [mcp_handle_request]
    rw [hmethod]
    simp only [mcp_send_response_result_json]
    have hfit' : (printJson (Json.obj [("jsonrpc", Json.str "2.0"),
        ("id", Json.num (request_id_of (cJSON_GetObjectItem json "id"))),
        ("result", tools_list_result server.tools)])).length < osz := hfit
    rw [if_pos hfit']
    simp [tools_list_response]
  rw [mcp_server_process_line, if_neg hosz, if_neg (by simp [hrun])]
  simp only [hh]

set_option maxRecDepth 8192 in
/-- Witness for C5: the demo server (echo and display_control registered in
that order) answers `tools/list` with exactly those two entries. -/
theorem tools_list_ok_witness :
    mcp_server_process_line demo_server
      (some (Json.obj [("jsonrpc", Json.str "2.0"), ("id", Json.num 2),
        ("method", Json.str "tools/list")])) 512 =
      (.ok (tools_list_response demo_server.tools 2),
       { demo_server with stats := { demo_server.stats with
           messages_received := demo_server.stats.messages_received + 1,
           messages_sent := demo_server.stats.messages_sent + 1,
           requests_processed := demo_server.stats.requests_processed + 1 } }) :=
  tools_list_ok demo_server
    (Json.obj [("jsonrpc", Json.str "2.0"), ("id", Json.num 2),
      ("method", Json.str "tools/list")]) 512 rfl (by decide) rfl (by decide)

theorem cJSON_GetObjectItem_response_id (id : Nat) (tail : List (String × Json)) :
    cJSON_GetObjectItem (Json.obj ([("jsonrpc", Json.str "2.0"),
      ("id", Json.num id)] ++ tail)) "id" = some (.num id) := by
  have h1 : case_insensitive_eq "jsonrpc" "id" = false := rfl
  have h2 : case_insensitive_eq "id" "id" = true := rfl
  simp [cJSON_GetObjectItem, List.find?, h1, h2]

/-- Every reply built by `mcp_send_response` carries the caller's `id` as
its numeric `id` member; the only possible failure is the output buffer
being too small. -/
theorem mcp_send_response_id_field (id : Nat) (res : Option (Json ⊕ String))
    (err : Option String) (osz : Nat) :
    (∃ resp, mcp_send_response id res err osz = .ok resp ∧
       cJSON_GetObjectItem resp "id" = some (.num id)) ∨
    mcp_send_response id res err osz = .error .invalidSize := by
  rcases err with _ | msg
  · rcases res with _ | r
    · rw [mcp_send_response]
      split
      · exact Or.inl ⟨_, rfl, cJSON_GetObjectItem_response_id id _⟩
      · exact Or.inr rfl
    · rcases r with rj | rs
      · rw [mcp_send_response]
        split
        · exact Or.inl ⟨_, rfl, cJSON_GetObjectItem_response_id id _⟩
        · exact Or.inr rfl
      · rw [mcp_send_response]
        split
        · exact Or.inl ⟨_, rfl, cJSON_GetObjectItem_response_id id _⟩
        · exact Or.inr rfl
  · rw [mcp_send_response]
    split
    · exact Or.inl ⟨_, rfl, cJSON_GetObjectItem_response_id id _⟩
    · exact Or.inr rfl

set_option maxHeartbeats 2000000 in
/-- Every parsed input with a string `method` is answered through
`mcp_send_response` at the extracted request id, whatever the method or the
tool lookup outcome. -/
theorem mcp_handle_request_replies (server : mcp_server_simple) (json : Json)
    (osz : Nat) (m : String)
    (hmethod : cJSON_GetObjectItem json "method" = some (.str m)) :
    ∃ res err, (mcp_handle_request server (some json) osz).1 =
      mcp_send_response (request_id_of (cJSON_GetObjectItem json "id"))
        res err osz := by
  rw [mcp_handle_request, hmethod]
  dsimp only
  repeat' split
  all_goals (dsimp only; exact ⟨_, _, rfl⟩)

theorem mcp_server_process_line_fst (server : mcp_server_simple)
    (parsed : Option Json) (osz : Nat)
    (hosz : osz ≠ 0) (hrun : server.running = true) :
    (mcp_server_process_line server parsed osz).1 =
      (mcp_handle_request { server with stats := { server.stats with
          messages_received := server.stats.messages_received + 1 } }
        parsed osz).1 := by
  rw [mcp_server_process_line, if_neg hosz, if_neg (by simp [hrun])]
  rcases h : (mcp_handle_request { server with stats := { server.stats with
      messages_received := server.stats.messages_received + 1 } }
      parsed osz).1 with e | resp
  · simp [h]
  · simp [h]

/-- C9: every parsed input line carrying a string `method` is answered: the
server builds a JSON-RPC reply for it — notifications (no `id` member)
included, whose reply has numeric `id` 0 — and the only way no reply is
written is the caller's output buffer being too small
(`ESP_ERR_INVALID_SIZE`); a notification is never silently dropped. -/
theorem notification_always_replied (server : mcp_server_simple) (json : Json)
    (osz : Nat) (m : String)
    (hrun : server.running = true) (hosz : osz ≠ 0)
    (hmethod : cJSON_GetObjectItem json "method" = some (.str m))
    (hid : cJSON_GetObjectItem json "id" = none) :
    (∃ resp, (mcp_server_process_line server (some json) osz).1 = .ok resp ∧
       cJSON_GetObjectItem resp "id" = some (.num 0)) ∨
    (mcp_server_process_line server (some json) osz).1 = .error .invalidSize := by
  obtain ⟨res, err, hreq⟩ := mcp_handle_request_replies
    { server with stats := { server.stats with
        messages_received := server.stats.messages_received + 1 } }
    json osz m hmethod
  have hid0 : request_id_of (cJSON_GetObjectItem json "id") = 0 := by
    rw [hid]
    rfl
  rw [hid0] at hreq
  have hfst := mcp_server_process_line_fst server (some json) osz hosz hrun
  rcases mcp_send_response_id_field 0 res err osz with ⟨resp, hok, hidf⟩ | herr
  · exact Or.inl ⟨resp, by rw [hfst, hreq, hok], hidf⟩
  · exact Or.inr (by rw [hfst, hreq, herr])

/-- Witness for C9 at the demo server and the notification
`{"jsonrpc":"2.0","method":"ping"}` (no `id`). -/
theorem notification_always_replied_witness :
    (∃ resp, (mcp_server_process_line demo_server
        (some (Json.obj [("jsonrpc", Json.str "2.0"),
          ("method", Json.str "ping")])) 256).1 = .ok resp ∧
       cJSON_GetObjectItem resp "id" = some (.num 0)) ∨
    (mcp_server_process_line demo_server
        (some (Json.obj [("jsonrpc", Json.str "2.0"),
          ("method", Json.str "ping")])) 256).1 = .error .invalidSize :=
  notification_always_replied demo_server
    (Json.obj [("jsonrpc", Json.str "2.0"), ("method", Json.str "ping")])
    256 "ping" rfl (by decide) rfl rfl

/-! ### Multi-client TCP transport (`mcp_tcp_transport.c`)

The accept step of `mcp_tcp_server_task` — everything done for one freshly
`accept`ed socket — is embedded as a function of the transport state.  The
client table `clients[4]` is a list whose length is the configured
`max_clients` (4 by default; the firmware's table is dimensioned for 4).
`xTaskCreate` success is the `task_create_ok` argument; the mutex
acquisition (100 ms timeout) is `mutex_ok`.  `uptime_ms`, `bytes_*` and the
per-message counters are carried but untouched by the accept step. -/

structure mcp_tcp_client_t where
  socket : Int
  client_id : Nat
  connected : Bool
  connect_time : Nat
  messages_received : Nat
  messages_sent : Nat
deriving DecidableEq, Repr

structure mcp_tcp_transport_stats_t where
  total_connections : Nat
  active_connections : Nat
  messages_received : Nat
  messages_sent : Nat
  bytes_received : Nat
  bytes_sent : Nat
  errors : Nat
deriving DecidableEq, Repr

structure mcp_tcp_transport_t where
  clients : List mcp_tcp_client_t
  client_count : Nat
  next_client_id : Nat
  stats : mcp_tcp_transport_stats_t
deriving DecidableEq, Repr

/-- What the accept step did with the new socket. -/
inductive AcceptOutcome where
  /-- Stored in the table at this slot; a client task now serves it. -/
  | accepted (slot : Nat)
  /-- Stored, but the client task could not be created: the slot was
  cleaned up again (socket closed). -/
  | task_failed (slot : Nat)
  /-- Table full (or mutex not acquired): socket closed immediately. -/
  | closed
deriving DecidableEq, Repr

/-- The `for (i = 0; i < max_clients; i++)` scan of
`find_free_client_slot`. -/
def find_free_slot_from : List mcp_tcp_client_t → Nat → Option Nat
  | [], _ => none
  | c :: rest, i => if !c.connected then some i else find_free_slot_from rest (i + 1)

/-- `find_free_client_slot`: index of the first table entry with
`connected == false`, `-1` (here `none`) when every slot is taken. -/
def find_free_client_slot (transport : mcp_tcp_transport_t) : Option Nat :=
  find_free_slot_from transport.clients 0

/-- `cleanup_client`: close the socket, clear the slot, decrement
`client_count` (guarded against 0) and re-derive `active_connections`. -/
def cleanup_client (transport : mcp_tcp_transport_t) (slot : Nat) :
    mcp_tcp_transport_t :=
  let cleared : mcp_tcp_client_t → mcp_tcp_client_t := fun c =>
    { c with socket := -1, connected := false, client_id := 0 }
  let clientsNew := match transport.clients.get? slot with
    | some c => transport.clients.set slot (cleared c)
    | none => transport.clients
  let countNew := if transport.client_count > 0 then transport.client_count - 1
    else transport.client_count
  { transport with
    clients := clientsNew, client_count := countNew,
    stats := { transport.stats with active_connections := countNew } }

/-- One accepted connection inside the accept loop of
`mcp_tcp_server_task`: take the mutex (close the socket and count an error
on failure), find a free slot (close the socket and count an error when the
table is full), otherwise fill the slot, bump `client_count`,
`total_connections`, `active_connections` and `next_client_id`, and create
the client task (cleaning the slot up again if that fails). -/
def mcp_tcp_accept_connection (transport : mcp_tcp_transport_t)
    (client_socket : Int) (now : Nat) (mutex_ok task_create_ok : Bool) :
    mcp_tcp_transport_t × AcceptOutcome :=
  if !mutex_ok then
    ({ transport with stats := { transport.stats with
        errors := transport.stats.errors + 1 } }, .closed)
  else
    match find_free_client_slot transport with
    | some slot =>
      let client : mcp_tcp_client_t :=
        { socket := client_socket, client_id := transport.next_client_id,
          connected := true, connect_time := now,
          messages_received := 0, messages_sent := 0 }
      let t1 : mcp_tcp_transport_t :=
        { transport with
          clients := transport.clients.set slot client,
          client_count := transport.client_count + 1,
          next_client_id := transport.next_client_id + 1,
          stats := { transport.stats with
            total_connections := transport.stats.total_connections + 1,
            active_connections := transport.stats.active_connections + 1 } }
      if task_create_ok then
        (t1, .accepted slot)
      else
        (cleanup_client t1 slot, .task_failed slot)
    | none =>
      ({ transport with stats := { transport.stats with
          errors := transport.stats.errors + 1 } }, .closed)

/-- The number of connected clients in the table. -/
def connected_count (transport : mcp_tcp_transport_t) : Nat :=
  (transport.clients.filter (fun c => c.connected)).length

theorem find_free_slot_from_none (l : List mcp_tcp_client_t) (i : Nat)
    (h : ∀ c ∈ l, c.connected = true) : find_free_slot_from l i = none := by
  induction l generalizing i with
  | nil => rfl
  | cons c rest ih =>
    rw [find_free_slot_from]
    rw [if_neg (by simp [h c (by simp)])]
    exact ih (i + 1) (fun d hd => h d (by simp [hd]))

theorem cleanup_client_length (t : mcp_tcp_transport_t) (slot : Nat) :
    (cleanup_client t slot).clients.length = t.clients.length := by
  rw [cleanup_client]
  rcases h : t.clients.get? slot with _ | c
  · simp [h]
  · simp [h]

/-- C6: Admission control.  The number of connected clients can never
exceed `max_clients` — the table has exactly `max_clients` slots and the
accept step never changes its size — and when every slot is occupied, an
accepted connection's socket is immediately closed, `stats.errors`
increments by exactly 1, and the table (all already-connected entries
included), `client_count` and `next_client_id` are left untouched. -/
theorem admission_control (t : mcp_tcp_transport_t) (sock : Int) (now : Nat)
    (task_ok : Bool) (hfull : ∀ c ∈ t.clients, c.connected = true) :
    mcp_tcp_accept_connection t sock now true task_ok =
      ({ t with stats := { t.stats with errors := t.stats.errors + 1 } },
       .closed) ∧
    (∀ (u : mcp_tcp_transport_t) (sock2 : Int) (now2 : Nat) (m2 tk2 : Bool),
      (mcp_tcp_accept_connection u sock2 now2 m2 tk2).1.clients.length =
        u.clients.length ∧
      connected_count (mcp_tcp_accept_connection u sock2 now2 m2 tk2).1 ≤
        u.clients.length) := by
  constructor
  · rw [mcp_tcp_accept_connection]
    rw [find_free_client_slot, find_free_slot_from_none t.clients 0 hfull]
    rfl
  · intro u sock2 now2 m2 tk2
    have hlen : (mcp_tcp_accept_connection u sock2 now2 m2 tk2).1.clients.length =
        u.clients.length := by
      rw [mcp_tcp_accept_connection]
      rcases m2 with _ | _
      · rfl
      · rcases hslot : find_free_client_slot u with _ | slot
        · simp [hslot]
        · rcases tk2 with _ | _
          · simp [hslot, cleanup_client_length]
          · simp [hslot]
    refine ⟨hlen, ?_⟩
    calc connected_count (mcp_tcp_accept_connection u sock2 now2 m2 tk2).1 ≤
        (mcp_tcp_accept_connection u sock2 now2 m2 tk2).1.clients.length :=
          List.length_filter_le _ _
      _ = u.clients.length := hlen

/-- Witness for C6 at a transport whose four slots are all connected. -/
theorem admission_control_witness :
    mcp_tcp_accept_connection
      ⟨[⟨10, 1, true, 0, 0, 0⟩, ⟨11, 2, true, 0, 0, 0⟩, ⟨12, 3, true, 0, 0, 0⟩,
        ⟨13, 4, true, 0, 0, 0⟩], 4, 5, ⟨4, 4, 0, 0, 0, 0, 0⟩⟩ 14 100 true true =
      ({ clients := [⟨10, 1, true, 0, 0, 0⟩, ⟨11, 2, true, 0, 0, 0⟩,
          ⟨12, 3, true, 0, 0, 0⟩, ⟨13, 4, true, 0, 0, 0⟩],
         client_count := 4, next_client_id := 5,
         stats := ⟨4, 4, 0, 0, 0, 0, 1⟩ }, .closed) :=
  (admission_control
    ⟨[⟨10, 1, true, 0, 0, 0⟩, ⟨11, 2, true, 0, 0, 0⟩, ⟨12, 3, true, 0, 0, 0⟩,
      ⟨13, 4, true, 0, 0, 0⟩], 4, 5, ⟨4, 4, 0, 0, 0, 0, 0⟩⟩ 14 100 true
    (by decide)).1
